import Mathlib

/-!
Shallow embedding of the blog content aggregation and normalization layer of
the tailwind-nextjs-starter-blog repository (a Next.js site with a Directus
headless CMS backend), together with theorems settling the frozen claims
about this layer.

Embedding conventions:
* JavaScript strings are modelled as Lean `String` where only equality and
  concatenation matter; for the character-level slug function `setSlug`
  (lib/slug.ts) a string is modelled as a `List Nat` of Unicode code points.
* JavaScript `null`/`undefined` is modelled with `Option`; the JS `||`
  operator on strings is modelled by `jsOrStr` (the empty string is falsy).
* Fallible route handlers return `Except ErrResp _`; a thrown exception that
  is caught by the route-level try/catch is an `Except.error` produced at the
  point where the JS code would throw (e.g. a `.find(...)` returning
  `undefined` followed by a property access).
* The Directus database is modelled as an explicit record of tables; the
  route handlers are pure functions of the database, the environment and the
  request parameters.  The view-counter update issued by the detail route is
  returned explicitly as a list of (post id, new views) write operations.
-/

/-- JS `a || b` for strings, where `a` may be `null`/`undefined` and the
empty string is falsy. -/
def jsOrStr (a : Option String) (b : String) : String :=
  match a with
  | none => b
  | some s => if s = "" then b else s

/-- JS `Array.prototype.slice(a, b)` for non-negative indices. -/
def jsSlice (l : List α) (a b : Nat) : List α :=
  (l.drop a).take (b - a)

/-- JS truthiness of an optional string environment variable
(`!process.env.X` is true when the variable is unset or empty). -/
def strTruthy (a : Option String) : Bool :=
  match a with
  | none => false
  | some s => s ≠ ""

/-! ## Pagination (src/components/Project.tsx lines 86-93, src/app/blog/page.tsx lines 9-23)

Both call sites compute `totalPages = Math.ceil(items.length / pageSize)`
and the visible window `items.slice(startIndex, endIndex)` with
`startIndex = (currentPage - 1) * pageSize` and
`endIndex = startIndex + pageSize` (the blog page writes the same window as
`items.slice(limit * (pageNumber - 1), limit * pageNumber)`).
`Math.ceil(n / s)` on natural numbers with `s ≥ 1` is `(n + s - 1) / s`. -/

structure PaginationOut (α : Type) where
  visible : List α
  totalPages : Nat
deriving DecidableEq

def paginate (items : List α) (pageSize currentPage : Nat) : PaginationOut α :=
  let totalPages := (items.length + pageSize - 1) / pageSize
  let startIndex := (currentPage - 1) * pageSize
  let endIndex := startIndex + pageSize
  { visible := jsSlice items startIndex endIndex, totalPages := totalPages }

/-! ## The slug normalizer (lib/slug.ts, src/unnamed/part_004)

`setSlug = (text) => text.trim().toLowerCase().replace(/\s+/g, '-').replace(/[^\w-]/g, '')`

A JS string is modelled as a list of Unicode code points.  `jsWs` is the
character class of the JS regex `\s` (which is also the set trimmed by
`String.prototype.trim`).  `toLowerCase` is modelled by the ASCII simple
case mapping `A-Z → a-z`; non-ASCII case mappings are immaterial for the
properties proved here because the final `[^\w-]` filter removes every
character outside `[A-Za-z0-9_-]` anyway. -/

/-- The JS `\s` character class (ECMA-262 WhiteSpace plus LineTerminator),
on code points. -/
def jsWs (n : Nat) : Bool :=
  decide (n = 9 ∨ n = 10 ∨ n = 11 ∨ n = 12 ∨ n = 13 ∨ n = 32 ∨ n = 160 ∨
    n = 5760 ∨ (8192 ≤ n ∧ n ≤ 8202) ∨ n = 8232 ∨ n = 8233 ∨ n = 8239 ∨
    n = 8287 ∨ n = 12288 ∨ n = 65279)

/-- JS `String.prototype.trim`: strip `jsWs` characters from both ends. -/
def jsTrim (s : List Nat) : List Nat :=
  ((s.dropWhile jsWs).reverse.dropWhile jsWs).reverse

/-- The `jsWs` class on Lean characters. -/
def charWs (c : Char) : Bool := jsWs c.toNat

/-- JS `String.prototype.trim` on a Lean `String` (used where the routes
call `.trim()` on a field modelled as `String`). -/
def jsStrTrim (s : String) : String :=
  String.mk (((s.data.dropWhile charWs).reverse.dropWhile charWs).reverse)

/-- JS `toLowerCase`, restricted to the ASCII simple case mapping. -/
def jsToLowerAscii (n : Nat) : Nat :=
  if 65 ≤ n ∧ n ≤ 90 then n + 32 else n

/-- Helper for `collapseWs`: the Bool flag records whether the previous
character was whitespace (i.e. we are inside a run that has already emitted
its hyphen). -/
def collapseWsAux : Bool → List Nat → List Nat
  | _, [] => []
  | inRun, c :: cs =>
    if jsWs c then
      (if inRun then [] else [45]) ++ collapseWsAux true cs
    else
      c :: collapseWsAux false cs

/-- JS `.replace(/\s+/g, '-')`: each maximal run of `jsWs` characters
becomes a single hyphen (code point 45). -/
def collapseWs (l : List Nat) : List Nat :=
  collapseWsAux false l

/-- The character class `[\w-]`, i.e. `[A-Za-z0-9_-]`, on code points. -/
def isWordOrHyphen (n : Nat) : Bool :=
  decide ((48 ≤ n ∧ n ≤ 57) ∨ (65 ≤ n ∧ n ≤ 90) ∨ (97 ≤ n ∧ n ≤ 122) ∨
    n = 95 ∨ n = 45)

/-- `setSlug` from lib/slug.ts:
trim, lower-case, collapse whitespace runs to hyphens, then delete every
character outside `[\w-]` (the `.replace(/[^\w-]/g, '')`). -/
def setSlug (s : List Nat) : List Nat :=
  (collapseWs ((jsTrim s).map jsToLowerAscii)).filter isWordOrHyphen

example : setSlug [32, 72, 101, 108, 108, 111, 32, 9, 87, 33, 100, 32] =
    [104, 101, 108, 108, 111, 45, 119, 100] := by decide

/-! ## Directus data model (src/app/api/blog/route.js, src/app/api/blog/[slug]/route.js)

Rows carry exactly the fields the two route handlers select and use
(presentation-only scalar pass-through fields such as `canonical_url` and
`layout` are omitted from the row model; no claim mentions them).  Dates are
modelled as `Nat` keys (only their ordering is used, for the
`sort: ['-date_published']` clause). -/

/-- A row of the `blog_posts_translations` table (also the shape of the
expanded `translations` relation on a `blog_posts` row). -/
structure TransRow where
  id : Nat
  blog_posts_id : Nat
  title : String
  slug : String
  summary : String
  content : String
  languages_code : String
deriving DecidableEq

/-- A row of the `blog_posts` table, with the `translations` relation
expanded as both routes request it. -/
structure PostRow where
  id : Nat
  status : String
  date_created : Nat
  date_updated : Nat
  date_published : Nat
  reading_time : Nat
  views : Option Nat
  tags : Option (List Nat)
  images : Option (List Nat)
  translations : List TransRow
deriving DecidableEq

/-- A row of the `blog_posts_tags` junction table. -/
structure TagLinkRow where
  id : Nat
  blog_posts_id : Nat
  tags_id : Nat
deriving DecidableEq

/-- A row of the `tags` table. -/
structure TagRow where
  id : Nat
  name : String
  slug : String
deriving DecidableEq

/-- A row of the `blog_posts_files` junction table. -/
structure FileLinkRow where
  id : Nat
  blog_posts_id : Nat
  directus_files_id : Nat
deriving DecidableEq

/-- The Directus instance, as the set of tables the two routes read. -/
structure Db where
  blog_posts : List PostRow
  blog_posts_translations : List TransRow
  blog_posts_tags : List TagLinkRow
  tags : List TagRow
  blog_posts_files : List FileLinkRow
deriving DecidableEq

/-- Environment configuration (`process.env.DIRECTUS_URL`,
`process.env.DIRECTUS_TOKEN`). -/
structure Env where
  directusUrl : Option String
  directusToken : Option String
deriving DecidableEq

/-- Error response body: HTTP status plus the `error` message string. -/
structure ErrResp where
  status : Nat
  error : String
deriving DecidableEq

/-! ### Relation resolution, shared verbatim by both routes

List route lines 101-105 and detail route lines 111-114:

`const postTagsId = post.tags?.map(tag => blog_posts_tags?.find(t => t.id === tag).tags_id) || [];`
`const tagsName = postTagsId?.map(tag => tags?.find(t => t.id === tag).name) || [];`
`const postFilesId = post.images.map(img => blog_posts_files?.find(f => f.id === img).directus_files_id) || [];`
`const imagesUrl = postFilesId.map(id => `(DIRECTUS_URL)/assets/(id)`) || [];`

`.find` returning `undefined` followed by the property access throws a
TypeError, which the route-level try/catch turns into a 500; this is the
`Except.error ()` case.  Note `post.images` is accessed without optional
chaining, so a missing `images` value also throws. -/

/-- JS `Array.prototype.map` over a callback that can throw: left-to-right,
the first throw aborts the whole map. -/
def mapExcept (f : α → Except Unit β) : List α → Except Unit (List β)
  | [] => Except.ok []
  | a :: l =>
    match f a with
    | Except.error e => Except.error e
    | Except.ok b =>
      match mapExcept f l with
      | Except.error e => Except.error e
      | Except.ok bs => Except.ok (b :: bs)

/-- `blog_posts_tags?.find(t => t.id === tag).tags_id`: junction-row
lookup of one tag id; the `undefined.tags_id` dereference is the error. -/
def tagLinkLookup (db : Db) (tag : Nat) : Except Unit Nat :=
  match db.blog_posts_tags.find? (fun t => t.id == tag) with
  | some t => Except.ok t.tags_id
  | none => Except.error ()

/-- `tags?.find(t => t.id === tag).name`: name lookup of one tag id. -/
def tagNameLookup (db : Db) (tag : Nat) : Except Unit String :=
  match db.tags.find? (fun t => t.id == tag) with
  | some t => Except.ok t.name
  | none => Except.error ()

/-- `blog_posts_files?.find(f => f.id === img).directus_files_id`. -/
def fileLookup (db : Db) (img : Nat) : Except Unit Nat :=
  match db.blog_posts_files.find? (fun f => f.id == img) with
  | some f => Except.ok f.directus_files_id
  | none => Except.error ()

/-- Resolve a post's tag ids to tag names through the `blog_posts_tags`
junction rows and the `tags` table; error on any unresolved id. -/
def resolveTagNames (db : Db) (p : PostRow) : Except Unit (List String) :=
  match p.tags with
  | none => Except.ok []
  | some ts =>
    match mapExcept (tagLinkLookup db) ts with
    | Except.error e => Except.error e
    | Except.ok ids => mapExcept (tagNameLookup db) ids

/-- Resolve a post's image ids to asset URLs through the
`blog_posts_files` junction rows; error on any unresolved id (and on a
missing `images` value, which JS dereferences without optional chaining). -/
def resolveImageUrls (env : Env) (db : Db) (p : PostRow) : Except Unit (List String) :=
  match p.images with
  | none => Except.error ()
  | some imgs =>
    match mapExcept (fileLookup db) imgs with
    | Except.error e => Except.error e
    | Except.ok fids =>
      Except.ok (fids.map (fun fid =>
        (env.directusUrl.getD "") ++ "/assets/" ++ toString fid))

/-! ### The list route, GET /api/blog (src/app/api/blog/route.js) -/

/-- Insert a post into a list kept in descending `date_published` order. -/
def insertDateDesc (p : PostRow) : List PostRow → List PostRow
  | [] => [p]
  | q :: qs =>
    if q.date_published ≤ p.date_published then p :: q :: qs
    else q :: insertDateDesc p qs

/-- Directus `sort: ['-date_published']`: descending by publish date. -/
def sortByDateDesc : List PostRow → List PostRow
  | [] => []
  | p :: ps => insertDateDesc p (sortByDateDesc ps)

/-- Directus `filter: status _eq published` on the `blog_posts` table
(used by both the page query and the total-count aggregate). -/
def publishedPosts (db : Db) : List PostRow :=
  db.blog_posts.filter (fun p => p.status == "published")

/-- The page of posts the list route requests:
published posts, sorted descending by publish date, with
`offset = (page - 1) * limit` and `limit` applied. -/
def pageSlice (db : Db) (page limit : Nat) : List PostRow :=
  ((sortByDateDesc (publishedPosts db)).drop ((page - 1) * limit)).take limit

/-- A transformed post as the list route returns it (the spread of the raw
row with `tags`, `images`, `title`, `slug`, `summary`, `language` replaced
and `translations` removed). -/
structure ListPost where
  id : Nat
  status : String
  date_created : Nat
  date_updated : Nat
  date_published : Nat
  reading_time : Nat
  views : Option Nat
  tags : List String
  images : List String
  title : String
  slug : String
  summary : String
  language : String
deriving DecidableEq

/-- List route lines 96-97: the translation matching the requested locale,
falling back to the first available translation
(`post.translations?.find(t => t.languages_code === locale) || post.translations?.[0]`). -/
def translationFor (locale : String) (p : PostRow) : Option TransRow :=
  match p.translations.find? (fun t => t.languages_code == locale) with
  | some t => some t
  | none => p.translations.head?

/-- The body of the list route's `posts.map(...)` callback: `ok none` models
the `return null` taken when the post has no translation at all; `error`
models a TypeError thrown by relation resolution. -/
def transformListPost (env : Env) (db : Db) (locale : String) (p : PostRow) :
    Except Unit (Option ListPost) :=
  match translationFor locale p with
  | none => Except.ok none
  | some tr =>
    match resolveTagNames db p with
    | Except.error e => Except.error e
    | Except.ok tagsName =>
      match resolveImageUrls env db p with
      | Except.error e => Except.error e
      | Except.ok imagesUrl => Except.ok (some {
          id := p.id, status := p.status, date_created := p.date_created,
          date_updated := p.date_updated, date_published := p.date_published,
          reading_time := p.reading_time, views := p.views,
          tags := tagsName, images := imagesUrl,
          title := tr.title, slug := jsStrTrim tr.slug, summary := tr.summary,
          language := tr.languages_code })

/-- `posts.map(...).filter(Boolean)` over the page, in JS evaluation order
(a throw in any element aborts the whole map). -/
def transformAllPosts (env : Env) (db : Db) (locale : String) :
    List PostRow → Except Unit (List ListPost)
  | [] => Except.ok []
  | p :: ps =>
    match transformListPost env db locale p with
    | Except.error e => Except.error e
    | Except.ok t =>
      match transformAllPosts env db locale ps with
      | Except.error e => Except.error e
      | Except.ok rest =>
        Except.ok (match t with | none => rest | some tp => tp :: rest)

/-- The `meta` object of the list response. -/
structure ListMeta where
  page : Nat
  limit : Nat
  total : Nat
  totalPages : Nat
  hasNext : Bool
  hasPrev : Bool
deriving DecidableEq

/-- The success body of the list response. -/
structure ListResp where
  data : List ListPost
  meta : ListMeta
deriving DecidableEq

/-- GET /api/blog (src/app/api/blog/route.js).  The upstream reads
themselves are modelled as always answering from `db`; the only modelled
throw inside the try block is the relation-resolution TypeError, which the
catch clause turns into the generic 500 (it is not the Directus
credentials error that the catch maps to 401). -/
def listGET (env : Env) (db : Db) (locale : String) (page limit : Nat) :
    Except ErrResp ListResp :=
  if !(strTruthy env.directusUrl && strTruthy env.directusToken) then
    Except.error { status := 500, error := "Server configuration error" }
  else
    match transformAllPosts env db locale (pageSlice db page limit) with
    | Except.error _ =>
      Except.error { status := 500, error := "Failed to fetch blog posts" }
    | Except.ok data =>
      let total := (publishedPosts db).length
      let totalPages := (total + limit - 1) / limit
      Except.ok {
        data := data,
        meta := {
          page := page, limit := limit, total := total,
          totalPages := totalPages,
          hasNext := decide (page < totalPages),
          hasPrev := decide (1 < page) } }

/-! ### The detail route, GET /api/blog/[slug] (src/app/api/blog/[slug]/route.js) -/

/-- One entry of `availableLanguages` (detail route lines 117-121). -/
structure AvailLang where
  code : String
  slug : String
  title : String
deriving DecidableEq

/-- The transformed post of the detail response. -/
structure DetailPost where
  id : Nat
  status : String
  date_created : Nat
  date_updated : Nat
  date_published : Nat
  reading_time : Nat
  tags : List String
  images : List String
  title : String
  slug : String
  summary : String
  content : String
  language : String
  availableLanguages : List AvailLang
  views : Nat
deriving DecidableEq

/-- Detail route lines 14-23: the first `blog_posts_translations` row whose
`slug` and `languages_code` both match the request (`limit: 1`). -/
def matchedTranslationRow (db : Db) (locale slug : String) : Option TransRow :=
  (db.blog_posts_translations.filter
    (fun r => r.slug == slug && r.languages_code == locale)).head?

/-- The `blog_posts` row the detail route reads after the translation
lookup (`readItem` by id with the `status = published` filter, modelled as
returning nothing when no published row has that id — the code's
`if (!post)` branch). -/
def matchedPost (db : Db) (locale slug : String) : Option PostRow :=
  (matchedTranslationRow db locale slug).bind (fun t0 =>
    db.blog_posts.find? (fun p => p.id == t0.blog_posts_id && p.status == "published"))

/-- The view-counter write the detail route issues (lines 82-91):
`updateItem('blog_posts', postId, { views: (post.views || 0) + 1 })`.
When the call throws, no write lands and the error is swallowed. -/
def viewUpdates (post : PostRow) (incrementFails : Bool) : List (Nat × Nat) :=
  if incrementFails then [] else [(post.id, post.views.getD 0 + 1)]

/-- GET /api/blog/[slug].  `incrementFails` says whether the
`updateItem` call for the view counter throws (its try/catch swallows the
failure).  The second component is the list of (post id, new view count)
writes actually performed. -/
def detailGET (env : Env) (db : Db) (locale slug : String)
    (incrementFails : Bool) : Except ErrResp DetailPost × List (Nat × Nat) :=
  match matchedTranslationRow db locale slug with
  | none => (Except.error { status := 404, error := "Post not found" }, [])
  | some t0 =>
    match db.blog_posts.find?
        (fun p => p.id == t0.blog_posts_id && p.status == "published") with
    | none => (Except.error { status := 404, error := "Post not found" }, [])
    | some post =>
      match post.translations.find? (fun t => t.languages_code == locale) with
      | none =>
        (Except.error { status := 404, error := "Translation not found" }, [])
      | some translation =>
        match resolveTagNames db post with
        | Except.error _ =>
          (Except.error { status := 500, error := "Failed to fetch blog post" },
            viewUpdates post incrementFails)
        | Except.ok tagsName =>
          match resolveImageUrls env db post with
          | Except.error _ =>
            (Except.error { status := 500, error := "Failed to fetch blog post" },
              viewUpdates post incrementFails)
          | Except.ok imagesUrl =>
            (Except.ok {
              id := post.id, status := post.status,
              date_created := post.date_created,
              date_updated := post.date_updated,
              date_published := post.date_published,
              reading_time := post.reading_time,
              tags := tagsName, images := imagesUrl,
              title := translation.title, slug := translation.slug,
              summary := translation.summary, content := translation.content,
              language := translation.languages_code,
              availableLanguages := post.translations.map
                (fun t => { code := t.languages_code, slug := t.slug, title := t.title }),
              views := post.views.getD 0 + 1 }, viewUpdates post incrementFails)

/-! ## The static content pipeline (src/unnamed/part_021 = utils/blogTransform.ts, src/app/sitemap.ts) -/

/-- The contentlayer `readingTime` value (an object with a `minutes`
field); minutes are JS numbers, modelled as rationals. -/
structure ReadTime where
  minutes : Option ℚ
deriving DecidableEq

/-- A compiled static post (the `CoreContent<Blog>` fields the adapter and
the sitemap read; `path` is the route path used by the sitemap). -/
structure StaticBlog where
  title : String
  slug : String
  path : String
  date : String
  lastmod : Option String
  summary : Option String
  tags : Option (List String)
  draft : Option Bool
  readingTime : Option ReadTime
  images : Option (List String)
deriving DecidableEq

/-- The normalized view model (src/types/blog.ts `BlogPost`). -/
structure BlogPost where
  id : Nat
  status : String
  date_created : String
  date_updated : String
  date_published : String
  reading_time : ℚ
  views : Nat
  images : Option (List String)
  tags : List String
  title : String
  slug : String
  summary : String
  content : Option String
  language : String
deriving DecidableEq

/-- `transformBlogToBlogPost` (utils/blogTransform.ts, src/unnamed/part_021):
the normalization adapter from a compiled static post to the canonical
`BlogPost` shape. -/
def transformBlogToBlogPost (blog : StaticBlog) : BlogPost :=
  { id := 0,
    status := if blog.draft.getD false then "draft" else "published",
    date_created := blog.date,
    date_updated := jsOrStr blog.lastmod blog.date,
    date_published := blog.date,
    reading_time :=
      match blog.readingTime with
      | some rt => rt.minutes.getD 0
      | none => 0,
    views := 0,
    images := blog.images,
    tags := blog.tags.getD [],
    title := blog.title,
    slug := blog.slug,
    summary := jsOrStr blog.summary "",
    content := none,
    language := "id-ID" }

/-- `transformBlogsToBlogPosts` (src/unnamed/part_021). -/
def transformBlogsToBlogPosts (blogs : List StaticBlog) : List BlogPost :=
  blogs.map transformBlogToBlogPost

/-- Modelled from the spec: the static accessor
`allCoreContent(sortPosts(allBlogs))` comes from the pliny library, whose
source is not in this repository; section 4.2 of the spec defines its
contract as returning the compiled posts with drafts excluded (the sort
does not affect membership and is left out). -/
def allCoreContentModel (blogs : List StaticBlog) : List StaticBlog :=
  blogs.filter (fun b => !(b.draft.getD false))

/-- One sitemap entry (src/app/sitemap.ts; `changeFrequency` and
`priority` are constants for blog routes). -/
structure SitemapRoute where
  url : String
  lastModified : String
  changeFrequency : String
  priority : ℚ
deriving DecidableEq

/-- The blog entries of the sitemap (src/app/sitemap.ts lines 18-25):
`allBlogs.filter((post) => !post.draft).map(...)`. -/
def sitemapBlogRoutes (siteUrl : String) (blogs : List StaticBlog) :
    List SitemapRoute :=
  (blogs.filter (fun p => !(p.draft.getD false))).map (fun p =>
    { url := siteUrl ++ "/" ++ p.path,
      lastModified := jsOrStr p.lastmod p.date,
      changeFrequency := "monthly",
      priority := 4 / 5 })

/-! ## Theorems -/

/-- Arithmetic helper: the item count never exceeds pageSize times the
computed page count. -/
theorem length_le_mul_ceil (n s : Nat) (hs : 1 ≤ s) :
    n ≤ s * ((n + s - 1) / s) := by
  have h := le_smul_ceilDiv (α := ℕ) (b := n) (show 0 < s by omega)
  rwa [smul_eq_mul, Nat.ceilDiv_eq_add_pred_div] at h

/-- C3: for every item list, pageSize ≥ 1 and currentPage ≥ 1, `paginate`
yields the visible window `items[(currentPage-1)*pageSize : currentPage*pageSize]`,
`totalPages = ceil(items.length / pageSize)`, and at most pageSize visible
items. -/
theorem claim_C3 (α : Type) (items : List α) (s p : Nat)
    (hs : 1 ≤ s) (hp : 1 ≤ p) :
    (paginate items s p).visible = jsSlice items ((p - 1) * s) (p * s) ∧
    (paginate items s p).totalPages = items.length ⌈/⌉ s ∧
    (paginate items s p).visible.length ≤ s := by
  have hmul : (p - 1) * s + s = p * s := by
    have h1 : (p - 1) * s = p * s - 1 * s := by rw [Nat.sub_mul]
    have h2 : s ≤ p * s := by
      calc s = 1 * s := by omega
        _ ≤ p * s := Nat.mul_le_mul_right s hp
    omega
  refine ⟨?_, ?_, ?_⟩
  · show jsSlice items ((p - 1) * s) ((p - 1) * s + s) = _
    rw [hmul]
  · rw [Nat.ceilDiv_eq_add_pred_div]; rfl
  · show (jsSlice items ((p - 1) * s) ((p - 1) * s + s)).length ≤ s
    simp only [jsSlice, List.length_take]
    omega

/-- Witness for C3 at a concrete input. -/
theorem claim_C3_witness :
    (paginate [0, 1, 2, 3, 4] 2 2).visible = jsSlice [0, 1, 2, 3, 4] 2 4 ∧
    (paginate [0, 1, 2, 3, 4] 2 2).totalPages = ([0, 1, 2, 3, 4] : List Nat).length ⌈/⌉ 2 ∧
    (paginate [0, 1, 2, 3, 4] 2 2).visible.length ≤ 2 :=
  claim_C3 ℕ [0, 1, 2, 3, 4] 2 2 (by decide) (by decide)

/-- C8: for the empty list and positive pageSize, `paginate` yields
totalPages = 0 and an empty visible slice; and for a currentPage strictly
beyond totalPages it yields an empty visible slice (it is a total function,
so it cannot throw). -/
theorem claim_C8 :
    (∀ (α : Type) (s p : Nat), 1 ≤ s →
      (paginate ([] : List α) s p).totalPages = 0 ∧
      (paginate ([] : List α) s p).visible = []) ∧
    (∀ (α : Type) (items : List α) (s p : Nat), 1 ≤ s →
      (paginate items s p).totalPages < p →
      (paginate items s p).visible = []) := by
  constructor
  · intro α s p hs
    constructor
    · show (([] : List α).length + s - 1) / s = 0
      simp only [List.length_nil]
      exact Nat.div_eq_of_lt (by omega)
    · show jsSlice ([] : List α) _ _ = []
      simp [jsSlice]
  · intro α items s p hs hlt
    have htot : (paginate items s p).totalPages = (items.length + s - 1) / s := rfl
    have hlen : items.length ≤ s * ((items.length + s - 1) / s) :=
      length_le_mul_ceil items.length s hs
    have hstart : items.length ≤ (p - 1) * s := by
      have h1 : ((items.length + s - 1) / s) * s ≤ (p - 1) * s := by
        apply Nat.mul_le_mul_right
        omega
      calc items.length ≤ s * ((items.length + s - 1) / s) := hlen
        _ = ((items.length + s - 1) / s) * s := Nat.mul_comm _ _
        _ ≤ (p - 1) * s := h1
    show jsSlice items ((p - 1) * s) _ = []
    simp only [jsSlice]
    rw [List.drop_eq_nil_of_le hstart, List.take_nil]

/-- Witness for C8 at concrete inputs. -/
theorem claim_C8_witness :
    ((paginate ([] : List Nat) 4 1).totalPages = 0 ∧
      (paginate ([] : List Nat) 4 1).visible = []) ∧
    (paginate [0, 1, 2] 2 5).visible = [] :=
  ⟨claim_C8.1 ℕ 4 1 (by decide), claim_C8.2 ℕ [0, 1, 2] 2 5 (by decide) (by decide)⟩

/-- C7: the normalization adapter is a pure total Lean function; for a
compiled static post whose `tags` field is present, the output has views 0,
language equal to the hard-coded default locale `id-ID`, content omitted,
reading_time equal to the compiled minutes estimate whenever one is
available and 0 exactly when it is unavailable, and slug, title and tags
copied through identically. -/
theorem claim_C7 (blog : StaticBlog) (ts : List String)
    (htags : blog.tags = some ts) :
    (transformBlogToBlogPost blog).views = 0 ∧
    (transformBlogToBlogPost blog).language = "id-ID" ∧
    (transformBlogToBlogPost blog).content = none ∧
    (transformBlogToBlogPost blog).slug = blog.slug ∧
    (transformBlogToBlogPost blog).title = blog.title ∧
    (transformBlogToBlogPost blog).tags = ts ∧
    (∀ rt m, blog.readingTime = some rt → rt.minutes = some m →
      (transformBlogToBlogPost blog).reading_time = m) ∧
    ((blog.readingTime = none ∨
        ∃ rt, blog.readingTime = some rt ∧ rt.minutes = none) →
      (transformBlogToBlogPost blog).reading_time = 0) := by
  refine ⟨rfl, rfl, rfl, rfl, rfl,
    by simp [transformBlogToBlogPost, htags], ?_, ?_⟩
  · intro rt m hrt hm
    simp [transformBlogToBlogPost, hrt, hm]
  · rintro (hrt | ⟨rt, hrt, hm⟩)
    · simp [transformBlogToBlogPost, hrt]
    · simp [transformBlogToBlogPost, hrt, hm]

/-- A concrete compiled static post for the C7 witness. -/
def exBlog7 : StaticBlog :=
  { title := "React guide", slug := "react-guide", path := "blog/react-guide",
    date := "2025-01-18", lastmod := none, summary := some "A guide",
    tags := some ["react", "typescript"], draft := none,
    readingTime := some { minutes := some 5 }, images := none }

/-- Witness for C7 at a concrete input. -/
theorem claim_C7_witness :
    (transformBlogToBlogPost exBlog7).views = 0 ∧
    (transformBlogToBlogPost exBlog7).language = "id-ID" ∧
    (transformBlogToBlogPost exBlog7).content = none ∧
    (transformBlogToBlogPost exBlog7).slug = exBlog7.slug ∧
    (transformBlogToBlogPost exBlog7).title = exBlog7.title ∧
    (transformBlogToBlogPost exBlog7).tags = ["react", "typescript"] ∧
    (transformBlogToBlogPost exBlog7).reading_time = 5 :=
  have h := claim_C7 exBlog7 ["react", "typescript"] rfl
  ⟨h.1, h.2.1, h.2.2.1, h.2.2.2.1, h.2.2.2.2.1, h.2.2.2.2.2.1,
    h.2.2.2.2.2.2.1 { minutes := some 5 } 5 rfl rfl⟩

/-- Every character `collapseWsAux` emits is either the hyphen or a
non-whitespace character of the input. -/
theorem mem_collapseWsAux {n : Nat} :
    ∀ (b : Bool) (l : List Nat), n ∈ collapseWsAux b l →
      n = 45 ∨ (n ∈ l ∧ jsWs n = false) := by
  intro b l
  induction l generalizing b with
  | nil => intro h; simp [collapseWsAux] at h
  | cons c cs ih =>
    intro h
    simp only [collapseWsAux] at h
    by_cases hc : jsWs c = true
    · rw [if_pos hc] at h
      rcases List.mem_append.mp h with h1 | h2
      · cases b with
        | true => exact absurd h1 (by simp)
        | false => exact Or.inl (by simpa using h1)
      · rcases ih true h2 with h45 | ⟨hm, hw⟩
        · exact Or.inl h45
        · exact Or.inr ⟨List.mem_cons_of_mem _ hm, hw⟩
    · rw [if_neg hc] at h
      rcases List.mem_cons.mp h with h1 | h2
      · subst h1
        exact Or.inr ⟨List.mem_cons_self _ _, by simpa using hc⟩
      · rcases ih false h2 with h45 | ⟨hm, hw⟩
        · exact Or.inl h45
        · exact Or.inr ⟨List.mem_cons_of_mem _ hm, hw⟩

/-- On whitespace-free input `collapseWsAux` is the identity. -/
theorem collapseWsAux_eq_self :
    ∀ (l : List Nat), (∀ a ∈ l, jsWs a = false) → ∀ b, collapseWsAux b l = l := by
  intro l
  induction l with
  | nil => intro _ b; rfl
  | cons c cs ih =>
    intro h b
    have hc : jsWs c = false := h c (List.mem_cons_self _ _)
    simp only [collapseWsAux, hc, Bool.false_eq_true, if_false, List.cons.injEq,
      true_and]
    exact ih (fun a ha => h a (List.mem_cons_of_mem _ ha)) false

/-- dropWhile is the identity when no element satisfies the predicate. -/
theorem dropWhile_eq_self_of (p : α → Bool) (l : List α)
    (h : ∀ a ∈ l, p a = false) : l.dropWhile p = l := by
  cases l with
  | nil => rfl
  | cons a l =>
    rw [List.dropWhile_cons, h a (List.mem_cons_self _ _)]
    simp

/-- map is the identity when the function fixes every element. -/
theorem map_eq_self_of (f : α → α) (l : List α)
    (h : ∀ a ∈ l, f a = a) : l.map f = l := by
  induction l with
  | nil => rfl
  | cons a l ih =>
    rw [List.map_cons, h a (List.mem_cons_self _ _),
      ih (fun a ha => h a (List.mem_cons_of_mem _ ha))]

/-- C10: every character of `setSlug s` is neither an uppercase ASCII
letter nor whitespace, and `setSlug` is idempotent. -/
theorem claim_C10 (s : List Nat) :
    (∀ n ∈ setSlug s, ¬(65 ≤ n ∧ n ≤ 90) ∧ jsWs n = false) ∧
    setSlug (setSlug s) = setSlug s := by
  have hword : ∀ n ∈ setSlug s, isWordOrHyphen n = true := by
    intro n hn
    exact (List.mem_filter.mp hn).2
  have hnup : ∀ n ∈ setSlug s, ¬(65 ≤ n ∧ n ≤ 90) := by
    intro n hn
    have h1 : n ∈ collapseWs ((jsTrim s).map jsToLowerAscii) :=
      (List.mem_filter.mp hn).1
    rcases mem_collapseWsAux false _ h1 with h45 | ⟨hm, _⟩
    · omega
    · rcases List.mem_map.mp hm with ⟨m, _, hme⟩
      unfold jsToLowerAscii at hme
      by_cases hup : 65 ≤ m ∧ m ≤ 90
      · rw [if_pos hup] at hme; omega
      · rw [if_neg hup] at hme; omega
  have hnws : ∀ n ∈ setSlug s, jsWs n = false := by
    intro n hn
    have hw := hword n hn
    simp only [isWordOrHyphen, decide_eq_true_eq] at hw
    simp only [jsWs, decide_eq_false_iff_not]
    omega
  refine ⟨fun n hn => ⟨hnup n hn, hnws n hn⟩, ?_⟩
  have h1 : jsTrim (setSlug s) = setSlug s := by
    unfold jsTrim
    rw [dropWhile_eq_self_of _ _ hnws,
      dropWhile_eq_self_of _ _ (fun a ha => hnws a (List.mem_reverse.mp ha)),
      List.reverse_reverse]
  have h2 : (setSlug s).map jsToLowerAscii = setSlug s :=
    map_eq_self_of _ _ (fun a ha => by
      unfold jsToLowerAscii
      rw [if_neg (hnup a ha)])
  have h3 : collapseWs (setSlug s) = setSlug s :=
    collapseWsAux_eq_self _ hnws false
  have h4 : (setSlug s).filter isWordOrHyphen = setSlug s :=
    List.filter_eq_self.mpr (fun a ha => hword a ha)
  show (collapseWs ((jsTrim (setSlug s)).map jsToLowerAscii)).filter isWordOrHyphen
      = setSlug s
  rw [h1, h2, h3, h4]

/-- The code points of the string " Hello \tW!d ". -/
def exSlugInput : List Nat := [32, 72, 101, 108, 108, 111, 32, 9, 87, 33, 100, 32]

/-- Witness for C10 at a concrete input (`setSlug " Hello \tW!d "` is
"hello-wd"; 104 is the code point of "h"). -/
theorem claim_C10_witness :
    (¬(65 ≤ 104 ∧ 104 ≤ 90) ∧ jsWs 104 = false) ∧
    setSlug (setSlug exSlugInput) = setSlug exSlugInput :=
  ⟨(claim_C10 exSlugInput).1 104 (by decide), (claim_C10 exSlugInput).2⟩

/-! ### Lemmas about the list route -/

/-- Insertion preserves membership (soundness direction). -/
theorem mem_insertDateDesc {q p : PostRow} :
    ∀ l : List PostRow, q ∈ insertDateDesc p l → q = p ∨ q ∈ l := by
  intro l
  induction l with
  | nil => intro h; simpa [insertDateDesc] using h
  | cons r rs ih =>
    intro h
    simp only [insertDateDesc] at h
    by_cases hc : r.date_published ≤ p.date_published
    · rw [if_pos (by simpa using hc)] at h
      rcases List.mem_cons.mp h with h1 | h2
      · exact Or.inl h1
      · exact Or.inr h2
    · rw [if_neg (by simpa using hc)] at h
      rcases List.mem_cons.mp h with h1 | h2
      · exact Or.inr (h1 ▸ List.mem_cons_self _ _)
      · rcases ih h2 with h3 | h4
        · exact Or.inl h3
        · exact Or.inr (List.mem_cons_of_mem _ h4)

/-- Sorting preserves membership (soundness direction). -/
theorem mem_sortByDateDesc {q : PostRow} :
    ∀ l : List PostRow, q ∈ sortByDateDesc l → q ∈ l := by
  intro l
  induction l with
  | nil => intro h; simp [sortByDateDesc] at h
  | cons p ps ih =>
    intro h
    rcases mem_insertDateDesc _ h with h1 | h2
    · exact h1 ▸ List.mem_cons_self _ _
    · exact List.mem_cons_of_mem _ (ih h2)

/-- Every post in the requested page is a published row. -/
theorem mem_pageSlice_status {p : PostRow} {db : Db} {page limit : Nat}
    (h : p ∈ pageSlice db page limit) : p.status = "published" := by
  unfold pageSlice at h
  have h1 : p ∈ sortByDateDesc (publishedPosts db) :=
    List.mem_of_mem_drop (List.mem_of_mem_take h)
  have h2 : p ∈ publishedPosts db := mem_sortByDateDesc _ h1
  have h3 := (List.mem_filter.mp h2).2
  exact eq_of_beq h3

/-- Every transformed post in a successful map-and-filter pass comes from
some input row whose transform succeeded with just that value. -/
theorem transformAllPosts_mem (env : Env) (db : Db) (locale : String) :
    ∀ (l : List PostRow) (out : List ListPost),
      transformAllPosts env db locale l = Except.ok out →
      ∀ tp ∈ out, ∃ p ∈ l, transformListPost env db locale p = Except.ok (some tp) := by
  intro l
  induction l with
  | nil =>
    intro out h tp htp
    simp only [transformAllPosts, Except.ok.injEq] at h
    subst h
    simp at htp
  | cons p ps ih =>
    intro out h tp htp
    simp only [transformAllPosts] at h
    cases hq : transformListPost env db locale p with
    | error e => rw [hq] at h; simp at h
    | ok t =>
      rw [hq] at h
      cases hr : transformAllPosts env db locale ps with
      | error e => rw [hr] at h; simp at h
      | ok rest =>
        rw [hr] at h
        simp only [Except.ok.injEq] at h
        cases t with
        | none =>
          subst h
          obtain ⟨p0, hp0, hp0t⟩ := ih rest hr tp htp
          exact ⟨p0, List.mem_cons_of_mem _ hp0, hp0t⟩
        | some tp0 =>
          subst h
          rcases List.mem_cons.mp htp with h1 | h2
          · exact ⟨p, List.mem_cons_self _ _, h1 ▸ hq⟩
          · obtain ⟨p0, hp0, hp0t⟩ := ih rest hr tp h2
            exact ⟨p0, List.mem_cons_of_mem _ hp0, hp0t⟩

/-- A successful transform copies the row's `status` through unchanged. -/
theorem transform_ok_status {env : Env} {db : Db} {locale : String}
    {p : PostRow} {tp : ListPost}
    (h : transformListPost env db locale p = Except.ok (some tp)) :
    tp.status = p.status := by
  unfold transformListPost at h
  cases h1 : translationFor locale p with
  | none => rw [h1] at h; simp at h
  | some tr =>
    rw [h1] at h
    cases h2 : resolveTagNames db p with
    | error e => rw [h2] at h; simp at h
    | ok tn =>
      rw [h2] at h
      cases h3 : resolveImageUrls env db p with
      | error e => rw [h3] at h; simp at h
      | ok iu =>
        rw [h3] at h
        simp only [Except.ok.injEq, Option.some.injEq] at h
        subst h
        rfl

/-- The locale-or-first translation choice is `none` exactly when the post
has no translations at all. -/
theorem translationFor_eq_none_iff (locale : String) (p : PostRow) :
    translationFor locale p = none ↔ p.translations = [] := by
  unfold translationFor
  cases h : p.translations.find? (fun t => t.languages_code == locale) with
  | some t =>
    simp only [reduceCtorEq, false_iff]
    intro hnil
    rw [hnil] at h
    simp at h
  | none => exact List.head?_eq_none_iff

/-- A successful transform yields `none` (the JS `return null`, filtered
out) exactly when the post has no translations at all. -/
theorem transform_ok_none_iff {env : Env} {db : Db} {locale : String}
    {p : PostRow} {t : Option ListPost}
    (h : transformListPost env db locale p = Except.ok t) :
    t = none ↔ p.translations = [] := by
  unfold transformListPost at h
  cases h1 : translationFor locale p with
  | none =>
    rw [h1] at h
    simp only [Except.ok.injEq] at h
    subst h
    simp [(translationFor_eq_none_iff locale p).mp h1]
  | some tr =>
    rw [h1] at h
    have hne : p.translations ≠ [] := by
      intro hnil
      rw [(translationFor_eq_none_iff locale p).mpr hnil] at h1
      simp at h1
    cases h2 : resolveTagNames db p with
    | error e => rw [h2] at h; simp at h
    | ok tn =>
      rw [h2] at h
      cases h3 : resolveImageUrls env db p with
      | error e => rw [h3] at h; simp at h
      | ok iu =>
        rw [h3] at h
        simp only [Except.ok.injEq] at h
        subst h
        simp [hne]

/-- In a successful pass, the number of returned posts equals the number of
page rows that have at least one translation. -/
theorem transformAllPosts_length (env : Env) (db : Db) (locale : String) :
    ∀ (l : List PostRow) (out : List ListPost),
      transformAllPosts env db locale l = Except.ok out →
      out.length = (l.filter (fun p => !p.translations.isEmpty)).length := by
  intro l
  induction l with
  | nil =>
    intro out h
    simp only [transformAllPosts, Except.ok.injEq] at h
    subst h
    rfl
  | cons p ps ih =>
    intro out h
    simp only [transformAllPosts] at h
    cases hq : transformListPost env db locale p with
    | error e => rw [hq] at h; simp at h
    | ok t =>
      rw [hq] at h
      cases hr : transformAllPosts env db locale ps with
      | error e => rw [hr] at h; simp at h
      | ok rest =>
        rw [hr] at h
        simp only [Except.ok.injEq] at h
        cases t with
        | none =>
          subst h
          have hnil : p.translations = [] := (transform_ok_none_iff hq).mp rfl
          rw [List.filter_cons]
          simp only [hnil, List.isEmpty_nil, Bool.not_true, Bool.false_eq_true,
            if_false]
          exact ih rest hr
        | some tp0 =>
          subst h
          have hne : p.translations ≠ [] := by
            intro hnil
            exact (by simp : (some tp0 : Option ListPost) ≠ none)
              ((transform_ok_none_iff hq).mpr hnil)
          rw [List.filter_cons]
          have : (!p.translations.isEmpty) = true := by simpa using hne
          simp only [this, if_true, List.length_cons]
          rw [ih rest hr]

/-- A throwing callback anywhere in the list makes the JS map throw. -/
theorem mapExcept_error (f : α → Except Unit β) :
    ∀ (l : List α) (x : α), x ∈ l → f x = Except.error () →
      mapExcept f l = Except.error () := by
  intro l
  induction l with
  | nil => intro x hx; simp at hx
  | cons a l ih =>
    intro x hx he
    simp only [mapExcept]
    cases hfa : f a with
    | error e => cases e; rfl
    | ok b =>
      rcases List.mem_cons.mp hx with h1 | h2
      · rw [h1] at he; rw [he] at hfa; cases hfa
      · rw [ih x h2 he]

/-- A post whose transform throws makes the whole map-and-filter pass
throw. -/
theorem transformAllPosts_error (env : Env) (db : Db) (locale : String) :
    ∀ (l : List PostRow) (p : PostRow), p ∈ l →
      transformListPost env db locale p = Except.error () →
      transformAllPosts env db locale l = Except.error () := by
  intro l
  induction l with
  | nil => intro p hp; simp at hp
  | cons q qs ih =>
    intro p hp he
    simp only [transformAllPosts]
    cases hq : transformListPost env db locale q with
    | error e => cases e; rfl
    | ok t =>
      rcases List.mem_cons.mp hp with h1 | h2
      · rw [h1] at he; rw [he] at hq; cases hq
      · rw [ih p h2 he]

/-- An unresolvable tag id (no junction row) makes tag-name resolution
throw. -/
theorem resolveTagNames_error {db : Db} {p : PostRow} {ts : List Nat} {tg : Nat}
    (hts : p.tags = some ts) (htg : tg ∈ ts)
    (hfind : db.blog_posts_tags.find? (fun t => t.id == tg) = none) :
    resolveTagNames db p = Except.error () := by
  simp only [resolveTagNames, hts]
  rw [mapExcept_error (tagLinkLookup db) ts tg htg
    (by simp only [tagLinkLookup, hfind])]

/-- A junction row whose `tags_id` has no `tags` row makes tag-name
resolution throw in its second pass. -/
theorem resolveTagNames_error2 {db : Db} {p : PostRow} {ts ids : List Nat}
    {tid : Nat}
    (hts : p.tags = some ts)
    (hids : mapExcept (tagLinkLookup db) ts = Except.ok ids)
    (htid : tid ∈ ids)
    (hfind : db.tags.find? (fun t => t.id == tid) = none) :
    resolveTagNames db p = Except.error () := by
  simp only [resolveTagNames, hts]
  rw [hids]
  show mapExcept (tagNameLookup db) ids = Except.error ()
  rw [mapExcept_error (tagNameLookup db) ids tid htid
    (by simp only [tagNameLookup, hfind])]

/-- An unresolvable image id makes image-URL resolution throw. -/
theorem resolveImageUrls_error {env : Env} {db : Db} {p : PostRow}
    {ims : List Nat} {im : Nat}
    (hims : p.images = some ims) (him : im ∈ ims)
    (hfind : db.blog_posts_files.find? (fun f => f.id == im) = none) :
    resolveImageUrls env db p = Except.error () := by
  simp only [resolveImageUrls, hims]
  rw [mapExcept_error (fileLookup db) ims im him
    (by simp only [fileLookup, hfind])]

/-- C4: no draft appears in the listing endpoint's data, the static
accessor's output, or the sitemap's blog routes.  (The static accessor is
spec-modelled via `allCoreContentModel`, see its doc comment.) -/
theorem claim_C4 :
    (∀ (env : Env) (db : Db) (locale : String) (page limit : Nat) (r : ListResp),
      listGET env db locale page limit = Except.ok r →
      ∀ tp ∈ r.data, tp.status ≠ "draft") ∧
    (∀ blogs : List StaticBlog, ∀ b ∈ allCoreContentModel blogs,
      b.draft.getD false = false) ∧
    (∀ (siteUrl : String) (blogs : List StaticBlog),
      ∀ route ∈ sitemapBlogRoutes siteUrl blogs,
      ∃ p ∈ blogs, p.draft.getD false = false ∧
        route.url = siteUrl ++ "/" ++ p.path) := by
  refine ⟨?_, ?_, ?_⟩
  · intro env db locale page limit r h tp htp
    unfold listGET at h
    split at h
    · simp at h
    · split at h
      · simp at h
      · next data heq =>
        simp only [Except.ok.injEq] at h
        subst h
        obtain ⟨p, hpmem, hpt⟩ :=
          transformAllPosts_mem env db locale _ data heq tp htp
        rw [transform_ok_status hpt, mem_pageSlice_status hpmem]
        decide
  · intro blogs b hb
    simpa using (List.mem_filter.mp hb).2
  · intro siteUrl blogs route hr
    unfold sitemapBlogRoutes at hr
    obtain ⟨p, hpf, heq⟩ := List.mem_map.mp hr
    have hp := List.mem_filter.mp hpf
    exact ⟨p, hp.1, by simpa using hp.2, by rw [← heq]⟩

/-- Example translation row for the C4 witness database. -/
def exTr4 : TransRow :=
  { id := 1, blog_posts_id := 1, title := "T", slug := "s", summary := "S",
    content := "C", languages_code := "en-US" }

/-- Example published post for the C4 witness database. -/
def exPost4 : PostRow :=
  { id := 1, status := "published", date_created := 0, date_updated := 0,
    date_published := 0, reading_time := 3, views := some 0,
    tags := some [], images := some [], translations := [exTr4] }

/-- Example draft post for the C4 witness database. -/
def exDraft4 : PostRow :=
  { id := 2, status := "draft", date_created := 0, date_updated := 0,
    date_published := 5, reading_time := 1, views := none,
    tags := none, images := some [], translations := [] }

/-- Example database for the C4 witness. -/
def exDb4 : Db :=
  { blog_posts := [exPost4, exDraft4], blog_posts_translations := [exTr4],
    blog_posts_tags := [], tags := [], blog_posts_files := [] }

/-- Example environment for the C4 witness. -/
def exEnv4 : Env := { directusUrl := some "u", directusToken := some "t" }

/-- The transformed post the list route returns for `exDb4`. -/
def exTp4 : ListPost :=
  { id := 1, status := "published", date_created := 0, date_updated := 0,
    date_published := 0, reading_time := 3, views := some 0, tags := [],
    images := [], title := "T", slug := "s", summary := "S",
    language := "en-US" }

/-- The list meta for `exDb4`. -/
def exMeta4 : ListMeta :=
  { page := 1, limit := 10, total := 1, totalPages := 1,
    hasNext := false, hasPrev := false }

/-- The list response for `exDb4`. -/
def exResp4 : ListResp := { data := [exTp4], meta := exMeta4 }

/-- Example static blogs and sitemap route for the C4 witness. -/
def exBlogA : StaticBlog :=
  { title := "A", slug := "a", path := "blog/a", date := "2025-01-01",
    lastmod := none, summary := none, tags := some [], draft := some false,
    readingTime := none, images := none }

/-- A draft static blog for the C4 witness. -/
def exBlogB : StaticBlog :=
  { title := "B", slug := "b", path := "blog/b", date := "2025-01-02",
    lastmod := none, summary := none, tags := none, draft := some true,
    readingTime := none, images := none }

/-- The sitemap route generated for `exBlogA`. -/
def exRouteA : SitemapRoute :=
  { url := "https://x" ++ "/" ++ "blog/a", lastModified := "2025-01-01",
    changeFrequency := "monthly", priority := 4 / 5 }

/-- Witness for C4 at concrete inputs. -/
theorem claim_C4_witness :
    exTp4.status ≠ "draft" ∧
    exBlogA.draft.getD false = false ∧
    (∃ p ∈ [exBlogA, exBlogB], p.draft.getD false = false ∧
      exRouteA.url = "https://x" ++ "/" ++ p.path) :=
  ⟨claim_C4.1 exEnv4 exDb4 "en-US" 1 10 exResp4 rfl exTp4 (by decide),
    claim_C4.2.1 [exBlogA, exBlogB] exBlogA (by decide),
    claim_C4.2.2 "https://x" [exBlogA, exBlogB] exRouteA
      (show exRouteA ∈ [exRouteA] from List.mem_cons_self _ _)⟩

/-- C5: if a post in the requested page has a translation (so it would be
returned) but carries a tag id with no `blog_posts_tags` row, a junction
row whose `tags_id` has no `tags` row, or an image id with no
`blog_posts_files` row, the whole list request fails with the generic 500,
never a partial result. -/
theorem claim_C5 (env : Env) (db : Db) (locale : String) (page limit : Nat)
    (p : PostRow)
    (henv : strTruthy env.directusUrl = true)
    (htok : strTruthy env.directusToken = true)
    (hmem : p ∈ pageSlice db page limit)
    (htr : p.translations ≠ [])
    (hbad : (∃ ts tg, p.tags = some ts ∧ tg ∈ ts ∧
        db.blog_posts_tags.find? (fun t => t.id == tg) = none) ∨
      (∃ ts ids tid, p.tags = some ts ∧
        mapExcept (tagLinkLookup db) ts = Except.ok ids ∧ tid ∈ ids ∧
        db.tags.find? (fun t => t.id == tid) = none) ∨
      (∃ ims im, p.images = some ims ∧ im ∈ ims ∧
        db.blog_posts_files.find? (fun f => f.id == im) = none)) :
    listGET env db locale page limit =
      Except.error { status := 500, error := "Failed to fetch blog posts" } := by
  have htrans : transformListPost env db locale p = Except.error () := by
    cases h1 : translationFor locale p with
    | none => exact absurd ((translationFor_eq_none_iff locale p).mp h1) htr
    | some tr =>
      unfold transformListPost
      rw [h1]
      rcases hbad with ⟨ts, tg, hts, htg, hfind⟩ |
        ⟨ts, ids, tid, hts, hids, htid, hfind⟩ | ⟨ims, im, hims, him, hfind⟩
      · rw [resolveTagNames_error hts htg hfind]
      · rw [resolveTagNames_error2 hts hids htid hfind]
      · cases h2 : resolveTagNames db p with
        | error e => cases e; rfl
        | ok tn => rw [resolveImageUrls_error hims him hfind]
  have hall := transformAllPosts_error env db locale _ p hmem htrans
  unfold listGET
  rw [henv, htok]
  simp only [Bool.and_self, Bool.not_true, Bool.false_eq_true, if_false]
  rw [hall]

/-- Example translation row for the C5 witness database. -/
def exTr5 : TransRow :=
  { id := 1, blog_posts_id := 1, title := "T", slug := "s", summary := "S",
    content := "C", languages_code := "en-US" }

/-- Example post with a dangling tag id (7) for the C5 witness. -/
def exPost5 : PostRow :=
  { id := 1, status := "published", date_created := 0, date_updated := 0,
    date_published := 0, reading_time := 2, views := some 4,
    tags := some [7], images := some [], translations := [exTr5] }

/-- Example database for the C5 witness: the `blog_posts_tags` table is
empty, so tag id 7 cannot resolve. -/
def exDb5 : Db :=
  { blog_posts := [exPost5], blog_posts_translations := [exTr5],
    blog_posts_tags := [], tags := [], blog_posts_files := [] }

/-- Example environment for the C5 witness. -/
def exEnv5 : Env := { directusUrl := some "u", directusToken := some "t" }

/-- Witness for C5 at a concrete input. -/
theorem claim_C5_witness :
    listGET exEnv5 exDb5 "en-US" 1 10 =
      Except.error { status := 500, error := "Failed to fetch blog posts" } :=
  claim_C5 exEnv5 exDb5 "en-US" 1 10 exPost5 (by decide) (by decide)
    (by decide) (by decide)
    (Or.inl ⟨[7], 7, rfl, by decide, rfl⟩)

/-- Example published post with no translation records, for C9. -/
def exPost9 : PostRow :=
  { id := 1, status := "published", date_created := 0, date_updated := 0,
    date_published := 0, reading_time := 2, views := some 4,
    tags := some [], images := some [], translations := [] }

/-- Example database for C9. -/
def exDb9 : Db :=
  { blog_posts := [exPost9], blog_posts_translations := [],
    blog_posts_tags := [], tags := [], blog_posts_files := [] }

/-- Example environment for C9. -/
def exEnv9 : Env := { directusUrl := some "u", directusToken := some "t" }

/-- The list meta returned for `exDb9`. -/
def exMeta9 : ListMeta :=
  { page := 1, limit := 10, total := 1, totalPages := 1,
    hasNext := false, hasPrev := false }

/-- The list response for `exDb9`: empty data despite one published post. -/
def exResp9 : ListResp := { data := [], meta := exMeta9 }

/-- C9: on every successful list request the data length equals the number
of page rows having at least one translation while meta.total counts all
published posts; and there is a request in which a published post with no
translations is silently dropped, making the data strictly shorter than the
requested limit, the meta page size and the total. -/
theorem claim_C9 :
    (∀ (env : Env) (db : Db) (locale : String) (page limit : Nat) (r : ListResp),
      listGET env db locale page limit = Except.ok r →
      r.data.length = ((pageSlice db page limit).filter
        (fun p => !p.translations.isEmpty)).length ∧
      r.meta.total = (publishedPosts db).length) ∧
    (∃ (env : Env) (db : Db) (locale : String) (page limit : Nat) (r : ListResp),
      listGET env db locale page limit = Except.ok r ∧
      (∃ p ∈ publishedPosts db, p.translations = []) ∧
      r.data.length < limit ∧ r.data.length < r.meta.limit ∧
      r.data.length < r.meta.total) := by
  constructor
  · intro env db locale page limit r h
    unfold listGET at h
    split at h
    · simp at h
    · split at h
      · simp at h
      · next data heq =>
        simp only [Except.ok.injEq] at h
        subst h
        exact ⟨transformAllPosts_length env db locale _ data heq, rfl⟩
  · exact ⟨exEnv9, exDb9, "en-US", 1, 10, exResp9, rfl,
      ⟨exPost9, by decide, rfl⟩, by decide, by decide, by decide⟩

/-- Witness for C9 (first conjunct) at a concrete input. -/
theorem claim_C9_witness :
    exResp9.data.length = ((pageSlice exDb9 1 10).filter
      (fun p => !p.translations.isEmpty)).length ∧
    exResp9.meta.total = (publishedPosts exDb9).length :=
  claim_C9.1 exEnv9 exDb9 "en-US" 1 10 exResp9 rfl

/-! ### Detail route claims -/

/-- When no translation row matches both the slug and the locale, the
detail route returns the 404 body and performs no write. -/
theorem detailGET_notFound (env : Env) (db : Db) (locale slug : String)
    (f : Bool)
    (h : ∀ r ∈ db.blog_posts_translations,
      ¬(r.slug = slug ∧ r.languages_code = locale)) :
    detailGET env db locale slug f =
      (Except.error { status := 404, error := "Post not found" }, []) := by
  have hm : matchedTranslationRow db locale slug = none := by
    unfold matchedTranslationRow
    rw [List.filter_eq_nil_iff.mpr ?_]
    · rfl
    · intro r hr hcontra
      simp only [Bool.and_eq_true, beq_iff_eq] at hcontra
      exact h r hr hcontra
  unfold detailGET
  rw [hm]

/-- C6: a getPost request whose slug matches no translation record yields
the 404-shaped not-found body (the handler is a total function, so it
terminates without throwing) and performs no view-counter write. -/
theorem claim_C6 (env : Env) (db : Db) (locale slug : String) (f : Bool)
    (h : ∀ r ∈ db.blog_posts_translations, r.slug ≠ slug) :
    detailGET env db locale slug f =
      (Except.error { status := 404, error := "Post not found" }, []) :=
  detailGET_notFound env db locale slug f
    (fun r hr hc => h r hr hc.1)

/-- Example translation row (slug "other") for the C6 witness. -/
def exTr6 : TransRow :=
  { id := 1, blog_posts_id := 1, title := "T", slug := "other",
    summary := "S", content := "C", languages_code := "en-US" }

/-- Example post for the C6 witness. -/
def exPost6 : PostRow :=
  { id := 1, status := "published", date_created := 0, date_updated := 0,
    date_published := 0, reading_time := 2, views := some 4,
    tags := some [], images := some [], translations := [exTr6] }

/-- Example database for the C6 witness. -/
def exDb6 : Db :=
  { blog_posts := [exPost6], blog_posts_translations := [exTr6],
    blog_posts_tags := [], tags := [], blog_posts_files := [] }

/-- Example environment for the C6 witness. -/
def exEnv6 : Env := { directusUrl := some "u", directusToken := some "t" }

/-- Witness for C6 at a concrete input. -/
theorem claim_C6_witness :
    detailGET exEnv6 exDb6 "en-US" "missing" false =
      (Except.error { status := 404, error := "Post not found" }, []) :=
  claim_C6 exEnv6 exDb6 "en-US" "missing" false (by decide)

/-- Example translation row (locale en-US only) for the C2 counterexample. -/
def exTr2 : TransRow :=
  { id := 1, blog_posts_id := 1, title := "T", slug := "s2", summary := "S",
    content := "C", languages_code := "en-US" }

/-- Example published post whose only variant is en-US, for C2. -/
def exPost2 : PostRow :=
  { id := 1, status := "published", date_created := 0, date_updated := 0,
    date_published := 0, reading_time := 2, views := some 4,
    tags := some [], images := some [], translations := [exTr2] }

/-- Example database for C2. -/
def exDb2 : Db :=
  { blog_posts := [exPost2], blog_posts_translations := [exTr2],
    blog_posts_tags := [], tags := [], blog_posts_files := [] }

/-- Example environment for C2. -/
def exEnv2 : Env := { directusUrl := some "u", directusToken := some "t" }

/-- C2 counterexample: the post with slug "s2" exists (one en-US variant),
no variant matches the requested locale id-ID, yet getPost returns the 404
not-found body instead of falling back to the first available variant. -/
theorem claim_C2_counterexample :
    (∃ t ∈ exDb2.blog_posts_translations, t.slug = "s2") ∧
    (∀ t ∈ exDb2.blog_posts_translations, t.languages_code ≠ "id-ID") ∧
    (detailGET exEnv2 exDb2 "id-ID" "s2" false).1 =
      Except.error { status := 404, error := "Post not found" } :=
  ⟨⟨exTr2, by decide, rfl⟩, by decide, rfl⟩

/-- C2 amended: when no translation row matches both the slug and the
requested locale, getPost returns a not-found outcome; it never falls back
to another variant (the first-available-variant fallback exists only in
the list endpoint). -/
theorem claim_C2_amended (env : Env) (db : Db) (locale slug : String)
    (f : Bool)
    (h : ∀ r ∈ db.blog_posts_translations,
      ¬(r.slug = slug ∧ r.languages_code = locale)) :
    (detailGET env db locale slug f).1 =
      Except.error { status := 404, error := "Post not found" } := by
  rw [detailGET_notFound env db locale slug f h]

/-- Witness for the amended C2 at a concrete input. -/
theorem claim_C2_witness :
    (detailGET exEnv2 exDb2 "id-ID" "s2" false).1 =
      Except.error { status := 404, error := "Post not found" } :=
  claim_C2_amended exEnv2 exDb2 "id-ID" "s2" false (by decide)

/-- Example translation row for C1. -/
def exTr1 : TransRow :=
  { id := 1, blog_posts_id := 1, title := "T", slug := "s", summary := "S",
    content := "C", languages_code := "en-US" }

/-- Example published post with a stored view count of 5, for C1. -/
def exPost1 : PostRow :=
  { id := 1, status := "published", date_created := 0, date_updated := 0,
    date_published := 0, reading_time := 2, views := some 5,
    tags := some [], images := some [], translations := [exTr1] }

/-- Example database for C1. -/
def exDb1 : Db :=
  { blog_posts := [exPost1], blog_posts_translations := [exTr1],
    blog_posts_tags := [], tags := [], blog_posts_files := [] }

/-- Example environment for C1. -/
def exEnv1 : Env := { directusUrl := some "u", directusToken := some "t" }

/-- C1 counterexample: with stored views = 5 and a failing increment call
(no write lands, second component is empty), the detail fetch still
succeeds but reports views = 6, not the stored 5 the claim requires. -/
theorem claim_C1_counterexample :
    exPost1.views = some 5 ∧
    (detailGET exEnv1 exDb1 "en-US" "s" true).2 = [] ∧
    ((detailGET exEnv1 exDb1 "en-US" "s" true).1.toOption.map
      (fun r => r.views)) = some 6 ∧
    (some 6 : Option Nat) ≠ some 5 :=
  ⟨rfl, rfl, rfl, by decide⟩

/-- C1 amended: the response body never depends on whether the increment
call fails (the failure is swallowed and cannot fail the read), and every
successful detail fetch reports views = stored views + 1 — also when the
increment failed and the stored counter was not changed. -/
theorem claim_C1_amended :
    (∀ (env : Env) (db : Db) (locale slug : String) (f : Bool),
      (detailGET env db locale slug f).1 =
        (detailGET env db locale slug false).1) ∧
    (∀ (env : Env) (db : Db) (locale slug : String) (f : Bool)
      (post : PostRow) (r : DetailPost),
      matchedPost db locale slug = some post →
      (detailGET env db locale slug f).1 = Except.ok r →
      r.views = post.views.getD 0 + 1) := by
  constructor
  · intro env db locale slug f
    unfold detailGET
    repeat' split
    all_goals rfl
  · intro env db locale slug f post r hm h
    unfold detailGET at h
    split at h
    · simp at h
    · next t0 heq1 =>
      split at h
      · simp at h
      · next post0 heq2 =>
        split at h
        · simp at h
        · next tr heq3 =>
          split at h
          · simp at h
          · next tn heq4 =>
            split at h
            · simp at h
            · next iu heq5 =>
              simp only [Except.ok.injEq] at h
              subst h
              unfold matchedPost at hm
              rw [heq1] at hm
              simp only [Option.some_bind] at hm
              rw [heq2] at hm
              simp only [Option.some.injEq] at hm
              subst hm
              rfl

/-- The detail payload returned for `exDb1`. -/
def exD1 : DetailPost :=
  { id := 1, status := "published", date_created := 0, date_updated := 0,
    date_published := 0, reading_time := 2, tags := [], images := [],
    title := "T", slug := "s", summary := "S", content := "C",
    language := "en-US",
    availableLanguages := [{ code := "en-US", slug := "s", title := "T" }],
    views := 6 }

/-- Witness for the amended C1 at a concrete input. -/
theorem claim_C1_witness :
    ((detailGET exEnv1 exDb1 "en-US" "s" true).1 =
      (detailGET exEnv1 exDb1 "en-US" "s" false).1) ∧
    exD1.views = exPost1.views.getD 0 + 1 :=
  ⟨claim_C1_amended.1 exEnv1 exDb1 "en-US" "s" true,
    claim_C1_amended.2 exEnv1 exDb1 "en-US" "s" true exPost1 exD1 rfl rfl⟩
